import Mathlib

/-!
Shallow embedding of the Sync Configuration Resolution & Validation Engine
of `airbyte-webapp/src/views/Connection/ConnectionForm/formConfig.tsx`,
together with the parts of its interface that the file imports
(`formConfigHelpers`, the operation domain model, the API client enums),
which are modelled from the specification where the source is not part of
this tree.

JavaScript conventions are mapped as follows: a field that may be
`undefined` becomes `Option`; a field that may be `undefined` or `null`
becomes `Option (Option _)` (outer `none` = `undefined`, `some none` =
`null`); enum string constants become inductive types; arrays become
lists.
-/

/-- Source-side extraction strategy (API client enum `SyncMode`). -/
inductive SyncMode where
  | FullRefresh
  | Incremental
deriving DecidableEq, Repr

/-- Destination-side write strategy (API client enum `DestinationSyncMode`). -/
inductive DestinationSyncMode where
  | overwrite
  | append
  | append_dedup
deriving DecidableEq, Repr

/-- API client enum `NamespaceDefinitionType`. -/
inductive NamespaceDefinitionType where
  | source
  | destination
  | customformat
deriving DecidableEq, Repr

/-- Modelled from the spec: the normalization option carried by a
`NormalizationOperation`; `RAW` is the raw/none sentinel, `BASIC` the fixed
default option (the type itself lives in `core/domain/connection/operation`,
outside this source tree). -/
inductive NormalizationType where
  | RAW
  | BASIC
deriving DecidableEq, Repr

/-- Modelled from the spec: the tag of the `Operation` tagged union —
`NormalizationOperation` vs `TransformationOperation` (dbt)
(`OperatorType` in `core/domain/connection/operation`). -/
inductive OperatorType where
  | Normalization
  | Dbt
deriving DecidableEq, Repr

/-- The `normalization` payload of an operator configuration:
`{ option: NormalizationType }`. -/
structure NormalizationConfig where
  option : NormalizationType
deriving DecidableEq, Repr

/-- The `operatorConfiguration` of an `OperationRead`: a tag plus the
optional normalization payload (accessed in the source through optional
chaining `operatorConfiguration?.normalization?.option`). -/
structure OperatorConfiguration where
  operatorType : OperatorType
  normalization : Option NormalizationConfig
deriving DecidableEq, Repr

/-- API model `OperationRead`: an operation with its persistence identity.
An operation not yet persisted carries the empty-string `operationId`
sentinel. -/
structure OperationRead where
  operationId : String
  name : String
  workspaceId : String
  operatorConfiguration : OperatorConfiguration
deriving DecidableEq, Repr

/-- Modelled from the spec: membership test for the normalization arm of the
`Operation` tagged union (`isNormalizationTransformation` in
`core/domain/connection/operation`, outside this source tree). -/
def isNormalizationTransformation (op : OperationRead) : Bool :=
  op.operatorConfiguration.operatorType = OperatorType.Normalization

/-- Modelled from the spec: membership test for the transformation (dbt) arm
of the `Operation` tagged union (`isDbtTransformation` in
`core/domain/connection/operation`, outside this source tree). -/
def isDbtTransformation (op : OperationRead) : Bool :=
  op.operatorConfiguration.operatorType = OperatorType.Dbt

/-- The immutable, source-declared stream descriptor (`AirbyteStream`):
name, supported sync modes, whether the source defines its own cursor, and
the default cursor path. -/
structure AirbyteStream where
  name : String
  supportedSyncModes : List SyncMode
  sourceDefinedCursor : Bool
  defaultCursorField : List String
deriving DecidableEq, Repr

/-- The mutable, user-edited per-stream configuration
(`AirbyteStreamConfiguration`). `primaryKey` and `cursorField` are `Option`
because the validator reaches them through optional chaining (`?.length`). -/
structure AirbyteStreamConfiguration where
  selected : Option Bool
  syncMode : Option SyncMode
  destinationSyncMode : Option DestinationSyncMode
  primaryKey : Option (List (List String))
  cursorField : Option (List String)
deriving DecidableEq, Repr

/-- One catalog row (`SyncSchemaStream`): a descriptor paired with its
configuration and the process-local correlation `id`. -/
structure SyncSchemaStream where
  id : String
  stream : AirbyteStream
  config : AirbyteStreamConfiguration
deriving DecidableEq, Repr

/-- Ordered catalog (`SyncSchema`). -/
structure SyncSchema where
  streams : List SyncSchemaStream
deriving DecidableEq, Repr

/-- `ConnectionSchedule`: both members are validated as required, so they are
modelled as optional inputs. -/
structure ConnectionSchedule where
  units : Option Nat
  timeUnit : Option String
deriving DecidableEq, Repr

/-- `SUPPORTED_MODES` (formConfig.tsx lines 42-47): the fixed, ordered
compatibility table of candidate `(SyncMode, DestinationSyncMode)` pairs. -/
def SUPPORTED_MODES : List (SyncMode × DestinationSyncMode) :=
  [(SyncMode.FullRefresh, DestinationSyncMode.overwrite),
   (SyncMode.FullRefresh, DestinationSyncMode.append),
   (SyncMode.Incremental, DestinationSyncMode.append),
   (SyncMode.Incremental, DestinationSyncMode.append_dedup)]

/-- `DEFAULT_SCHEDULE` (formConfig.tsx lines 49-52): 24-hour interval. -/
def DEFAULT_SCHEDULE : ConnectionSchedule :=
  { units := some 24, timeUnit := some "hours" }

/-- Modelled from the spec: the fixed sentinel token used as the default
namespace format (`SOURCE_NAMESPACE_TAG` in `core/domain/connector/source`,
outside this source tree). -/
def SOURCE_NAMESPACE_TAG : String := "${SOURCE_NAMESPACE}"

/-- The qualifying test of one compatibility-table entry: the stream's
descriptor supports the pair's source sync mode and the destination declares
the pair's destination sync mode. -/
def modeQualifies (stream : SyncSchemaStream)
    (supportedDestinationSyncModes : Option (List DestinationSyncMode))
    (p : SyncMode × DestinationSyncMode) : Bool :=
  stream.stream.supportedSyncModes.contains p.1 &&
    (supportedDestinationSyncModes.getD []).contains p.2

/-- Modelled from the spec: `getOptimalSyncMode` (`formConfigHelpers`, not
part of this source tree) — the default-mode resolver: iterate the
compatibility table `SUPPORTED_MODES` in priority order and return the
first pair such that the stream supports its source sync mode and the
destination declares its destination sync mode, writing that pair into the
stream's configuration; return `none` (NONE) when no pair qualifies, so the
caller drops the stream. -/
def getOptimalSyncMode (stream : SyncSchemaStream)
    (supportedDestinationSyncModes : Option (List DestinationSyncMode)) :
    Option SyncSchemaStream :=
  match SUPPORTED_MODES.find? (modeQualifies stream supportedDestinationSyncModes) with
  | some p =>
      some { stream with
              config := { stream.config with
                            syncMode := some p.1
                            destinationSyncMode := some p.2 } }
  | none => none

/-- Modelled from the spec: `verifySupportedSyncModes` (`formConfigHelpers`,
not part of this source tree). The spec replaces a configured pair that the
source/destination pairing does not support; at this call site only the
stream is available, so the source-side check is done here (an unsupported
configured source mode is cleared) and the destination-side repair and the
dropping of unresolvable streams happen in `getOptimalSyncMode`. -/
def verifySupportedSyncModes (stream : SyncSchemaStream) : SyncSchemaStream :=
  match stream.config.syncMode with
  | some m =>
      if stream.stream.supportedSyncModes.contains m then stream
      else { stream with config := { stream.config with syncMode := none } }
  | none => stream

/-- Modelled from the spec: `verifyConfigCursorField` (`formConfigHelpers`,
not part of this source tree) — `repairCursorField`: when the sync mode is
`Incremental`, the descriptor does not self-define a cursor and no cursor
field is set, substitute the descriptor's default cursor path (an empty
default leaves the cursor field empty, to be caught by validation). -/
def verifyConfigCursorField (stream : SyncSchemaStream) : SyncSchemaStream :=
  if stream.config.syncMode = some SyncMode.Incremental ∧
      stream.stream.sourceDefinedCursor = false ∧
      stream.config.cursorField.getD [] = [] then
    { stream with
        config := { stream.config with
                      cursorField := some stream.stream.defaultCursorField } }
  else stream

/-- `useInitialSchema` (formConfig.tsx lines 201-217): assign each incoming
stream the string form of its zero-based position as `id`, repair its
configuration, resolve its default mode, and drop the streams the resolver
could not settle (`filter(Boolean)` on the optional results). -/
def useInitialSchema (schema : SyncSchema)
    (supportedDestinationSyncModes : Option (List DestinationSyncMode)) :
    SyncSchema :=
  { streams :=
      ((schema.streams.enum.map (fun p =>
          getOptimalSyncMode
            (verifyConfigCursorField (verifySupportedSyncModes
              { p.2 with id := Nat.repr p.1 }))
            supportedDestinationSyncModes)).filterMap (fun x => x)) }

/-- A validation violation: the message key and the field path it is
attributed to (the shape produced by `createError` in the source). -/
structure Violation where
  message : String
  path : String
deriving DecidableEq, Repr

/-- The `MissingPrimaryKey` violation for the stream with the given `id`
(formConfig.tsx lines 123-126). -/
def pkViolation (id : String) : Violation :=
  { message := "connectionForm.primaryKey.required"
    path := "schema.streams[" ++ id ++ "].config.primaryKey" }

/-- The `MissingCursorField` violation for the stream with the given `id`
(formConfig.tsx lines 137-140). -/
def cursorViolation (id : String) : Violation :=
  { message := "connectionForm.cursorField.required"
    path := "schema.streams[" ++ id ++ "].config.cursorField" }

/-- The per-stream `connectionSchema.config.validator` test of
`connectionValidationSchema` (formConfig.tsx lines 111-145): unselected
streams pass; a selected stream with `destinationSyncMode = append_dedup`
and a present-but-empty `primaryKey` yields `MissingPrimaryKey`; otherwise a
selected `Incremental` stream without a source-defined cursor and with a
present-but-empty `cursorField` yields `MissingCursorField`; everything else
passes. Returns at most one violation, mirroring the early returns of the
source. -/
def validateStreamConfig (parent : SyncSchemaStream) : Option Violation :=
  let value := parent.config
  if value.selected ≠ some true then none
  else if value.destinationSyncMode = some DestinationSyncMode.append_dedup ∧
      value.primaryKey.map List.length = some 0 then
    some (pkViolation parent.id)
  else if value.syncMode = some SyncMode.Incremental ∧
      parent.stream.sourceDefinedCursor = false ∧
      value.cursorField.map List.length = some 0 then
    some (cursorViolation parent.id)
  else none

/-- The violations of a whole edited `SyncSchema` under the per-stream rule
of `connectionValidationSchema`, in stream order. -/
def validateSyncSchema (schema : SyncSchema) : List Violation :=
  schema.streams.filterMap validateStreamConfig

/-- The top-level `schedule` rule of `connectionValidationSchema`
(formConfig.tsx lines 73-79): the field must be defined (`.defined`), `null`
is allowed (`.nullable`), and a concrete schedule object must have `units`
populated (`number().required()`) and `timeUnit` populated AND non-empty
(`string().required()` treats the empty string as missing). Returns `true`
when the schedule passes this rule. -/
def validateSchedule (schedule : Option (Option ConnectionSchedule)) : Bool :=
  match schedule with
  | none => false
  | some none => true
  | some (some s) =>
      s.units.isSome &&
        (match s.timeUnit with
         | some t => t ≠ ""
         | none => false)

/-- The values consumed by `mapFormPropsToOperation`: the user's
transformation list and normalization choice, each optional. -/
structure OperationFormValues where
  transformations : Option (List OperationRead)
  normalization : Option NormalizationType
deriving DecidableEq, Repr

/-- `mapFormPropsToOperation` (formConfig.tsx lines 163-200): when a
normalization choice is present and is not the raw sentinel, push the
persisted normalization operation found among `initialOperations`, or a
newly synthesized one with the empty-string id sentinel; then push the
user's transformations in order. -/
def mapFormPropsToOperation (values : OperationFormValues)
    (initialOperations : List OperationRead) (workspaceId : String) :
    List OperationRead :=
  let newOperations : List OperationRead :=
    match values.normalization with
    | some n =>
        if n ≠ NormalizationType.RAW then
          match initialOperations.find? isNormalizationTransformation with
          | some normalizationOperation => [normalizationOperation]
          | none =>
              [{ name := "Normalization"
                 workspaceId := workspaceId
                 operationId := ""
                 operatorConfiguration :=
                   { operatorType := OperatorType.Normalization
                     normalization := some { option := n } } }]
        else []
    | none => []
  match values.transformations with
  | some ts => newOperations ++ ts
  | none => newOperations

/-- `getInitialTransformations` (formConfig.tsx lines 219-220): the
transformation-kind operations among the persisted ones, in order. -/
def getInitialTransformations (ops : Option (List OperationRead)) :
    List OperationRead :=
  match ops with
  | some l => l.filter isDbtTransformation
  | none => []

/-- `getInitialNormalization` (formConfig.tsx lines 222-232): the persisted
normalization option when one exists; the edit-mode branch of the source
reassigns `undefined` to an already-falsy value (a no-op kept here
faithfully); the result falls back to `BASIC`. -/
def getInitialNormalization (ops : Option (List OperationRead))
    (isEditMode : Bool) : NormalizationType :=
  let initialNormalization : Option NormalizationType :=
    ((ops.getD []).find? isNormalizationTransformation).bind
      (fun op => op.operatorConfiguration.normalization.map NormalizationConfig.option)
  -- "If no normalization was selected for already present normalization -> select Raw one"
  let repaired : Option NormalizationType :=
    if initialNormalization.isNone && isEditMode then none else initialNormalization
  repaired.getD NormalizationType.BASIC

/-- `DestinationDefinitionSpecificationRead`: the destination capability
descriptor fields this engine reads. -/
structure DestinationDefinitionSpecificationRead where
  supportedDestinationSyncModes : Option (List DestinationSyncMode)
  supportsDbt : Bool
  supportsNormalization : Bool
deriving DecidableEq, Repr

/-- `WebBackendConnectionRead`: the persisted connection state this engine
reads. The TS field named after the table-name text prepended to stream
names is called `prefixStr` here. -/
structure WebBackendConnectionRead where
  syncCatalog : SyncSchema
  schedule : Option (Option ConnectionSchedule)
  prefixStr : Option String
  namespaceDefinition : Option NamespaceDefinitionType
  namespaceFormat : Option String
  operations : Option (List OperationRead)
deriving DecidableEq, Repr

/-- `FormikConnectionFormValues`: the ready-to-edit configuration the
initial-state builder produces. -/
structure FormikConnectionFormValues where
  schedule : Option (Option ConnectionSchedule)
  prefixStr : String
  syncCatalog : SyncSchema
  namespaceDefinition : Option NamespaceDefinitionType
  namespaceFormat : String
  transformations : Option (List OperationRead)
  normalization : Option NormalizationType
deriving DecidableEq, Repr

/-- `useInitialValues` (formConfig.tsx lines 234-264): normalize the catalog
against the destination's declared sync modes, default the top-level fields
(`!== undefined` keeps an explicit `null` schedule; `||` and `??` supply the
defaults), and seed `transformations`/`normalization` from the persisted
operations when the destination supports them. -/
def useInitialValues (connection : WebBackendConnectionRead)
    (destDefinition : DestinationDefinitionSpecificationRead)
    (isEditMode : Bool) : FormikConnectionFormValues :=
  let initialSchema :=
    useInitialSchema connection.syncCatalog destDefinition.supportedDestinationSyncModes
  let operations := connection.operations.getD []
  { syncCatalog := initialSchema
    schedule :=
      match connection.schedule with
      | none => some (some DEFAULT_SCHEDULE)
      | some s => some s
    prefixStr :=
      match connection.prefixStr with
      | some p => if p = "" then "" else p
      | none => ""
    namespaceDefinition :=
      some (match connection.namespaceDefinition with
            | some nd => nd
            | none => NamespaceDefinitionType.source)
    namespaceFormat := connection.namespaceFormat.getD SOURCE_NAMESPACE_TAG
    transformations :=
      if destDefinition.supportsDbt then
        some (getInitialTransformations (some operations))
      else none
    normalization :=
      if destDefinition.supportsNormalization then
        some (getInitialNormalization (some operations) isEditMode)
      else none }

/-- The initial-state builder of the spec: `useInitialValues` composed with
`mapFormPropsToOperation` over the resulting form values and the persisted
operations. -/
def buildInitialState (connection : WebBackendConnectionRead)
    (destDefinition : DestinationDefinitionSpecificationRead)
    (isEditMode : Bool) (workspaceId : String) :
    FormikConnectionFormValues × List OperationRead :=
  let v := useInitialValues connection destDefinition isEditMode
  (v,
   mapFormPropsToOperation
     { transformations := v.transformations, normalization := v.normalization }
     (connection.operations.getD []) workspaceId)

/-- The dropping criterion of the schema normalizer, stated independently of
the resolver: some compatibility-table entry qualifies for the stream and
the destination's declared sync modes. -/
def resolvable (stream : SyncSchemaStream)
    (supportedDestinationSyncModes : Option (List DestinationSyncMode)) : Bool :=
  SUPPORTED_MODES.any (modeQualifies stream supportedDestinationSyncModes)

/-- A concrete catalog row used by the concrete instances below: a selected,
otherwise unconfigured stream with the given supported sync modes. -/
def exampleStream (modes : List SyncMode) : SyncSchemaStream :=
  { id := ""
    stream :=
      { name := "users"
        supportedSyncModes := modes
        sourceDefinedCursor := false
        defaultCursorField := [] }
    config :=
      { selected := some true
        syncMode := none
        destinationSyncMode := none
        primaryKey := none
        cursorField := none } }

theorem find?_isSome_eq_any {α : Type} (p : α → Bool) (l : List α) :
    (l.find? p).isSome = l.any p := by
  induction l with
  | nil => rfl
  | cons a t ih =>
      by_cases h : p a = true
      · rw [List.find?_cons_of_pos _ h, List.any_cons, h]
        rfl
      · rw [List.find?_cons_of_neg _ (by simpa using h), List.any_cons]
        simp only [Bool.not_eq_true] at h
        rw [h, ih]
        rfl

theorem verifySupportedSyncModes_stream (s : SyncSchemaStream) :
    (verifySupportedSyncModes s).stream = s.stream := by
  unfold verifySupportedSyncModes
  rcases s.config.syncMode with _ | m
  · rfl
  · dsimp only
    split <;> rfl

theorem verifySupportedSyncModes_id (s : SyncSchemaStream) :
    (verifySupportedSyncModes s).id = s.id := by
  unfold verifySupportedSyncModes
  rcases s.config.syncMode with _ | m
  · rfl
  · dsimp only
    split <;> rfl

theorem verifyConfigCursorField_stream (s : SyncSchemaStream) :
    (verifyConfigCursorField s).stream = s.stream := by
  unfold verifyConfigCursorField
  split <;> rfl

theorem verifyConfigCursorField_id (s : SyncSchemaStream) :
    (verifyConfigCursorField s).id = s.id := by
  unfold verifyConfigCursorField
  split <;> rfl

theorem getOptimalSyncMode_id (s : SyncSchemaStream)
    (caps : Option (List DestinationSyncMode)) (t : SyncSchemaStream)
    (h : getOptimalSyncMode s caps = some t) : t.id = s.id := by
  unfold getOptimalSyncMode at h
  rcases hf : SUPPORTED_MODES.find? (modeQualifies s caps) with _ | p <;>
    rw [hf] at h
  · exact absurd h (by simp)
  · cases h
    rfl

theorem getOptimalSyncMode_isSome (s : SyncSchemaStream)
    (caps : Option (List DestinationSyncMode)) :
    (getOptimalSyncMode s caps).isSome = resolvable s caps := by
  unfold getOptimalSyncMode resolvable
  rw [← find?_isSome_eq_any]
  rcases hf : SUPPORTED_MODES.find? (modeQualifies s caps) with _ | p <;> rfl

/-- The stream of claim C1: it supports both `FullRefresh` and
`Incremental`. -/
def c1Stream : SyncSchemaStream :=
  exampleStream [SyncMode.FullRefresh, SyncMode.Incremental]

/-- The destination sync modes declared by the destination of claim C1,
whose capabilities are exactly
`{(FullRefresh, overwrite), (Incremental, append_dedup)}`. -/
def c1Caps : Option (List DestinationSyncMode) :=
  some [DestinationSyncMode.overwrite, DestinationSyncMode.append_dedup]

/-- C1 counterexample: for a stream supporting both `FullRefresh` and
`Incremental` and a destination declaring `{overwrite, append_dedup}`, the
default-mode resolution does NOT return `(Incremental, append_dedup)` as the
claim states — `SUPPORTED_MODES` lists `(FullRefresh, overwrite)` first and
first-match returns it. -/
theorem c1_counterexample :
    (getOptimalSyncMode c1Stream c1Caps).map
        (fun t => (t.config.syncMode, t.config.destinationSyncMode)) ≠
      some (some SyncMode.Incremental, some DestinationSyncMode.append_dedup) := by
  decide

/-- C1 (amended): for a stream whose descriptor supports both `FullRefresh`
and `Incremental` and a destination declaring exactly
`{overwrite, append_dedup}`, the default-mode resolution (first qualifying
entry of `SUPPORTED_MODES` in table order) returns
`(FullRefresh, overwrite)`, the earlier table entry, not
`(Incremental, append_dedup)`. -/
theorem c1_getOptimalSyncMode_first_match (s : SyncSchemaStream)
    (h₁ : s.stream.supportedSyncModes.contains SyncMode.FullRefresh = true)
    (_h₂ : s.stream.supportedSyncModes.contains SyncMode.Incremental = true) :
    (getOptimalSyncMode s c1Caps).map
        (fun t => (t.config.syncMode, t.config.destinationSyncMode)) =
      some (some SyncMode.FullRefresh, some DestinationSyncMode.overwrite) := by
  have hq : modeQualifies s c1Caps
      (SyncMode.FullRefresh, DestinationSyncMode.overwrite) = true := by
    unfold modeQualifies
    rw [h₁]
    rfl
  unfold getOptimalSyncMode
  rw [SUPPORTED_MODES, List.find?_cons_of_pos _ hq]
  rfl

/-- Witness for C1: the amended theorem applied at the concrete stream of
the claim. -/
theorem c1_witness :
    (getOptimalSyncMode c1Stream c1Caps).map
        (fun t => (t.config.syncMode, t.config.destinationSyncMode)) =
      some (some SyncMode.FullRefresh, some DestinationSyncMode.overwrite) :=
  c1_getOptimalSyncMode_first_match c1Stream (by decide) (by decide)

/-- A concrete transformation-kind operation used by the concrete instances
below. -/
def exampleTransformation : OperationRead :=
  { operationId := "op-1"
    name := "My dbt transformations"
    workspaceId := "w"
    operatorConfiguration := { operatorType := OperatorType.Dbt, normalization := none } }

/-- Concrete form values with a `BASIC` normalization choice and one
transformation. -/
def exampleValues : OperationFormValues :=
  { transformations := some [exampleTransformation]
    normalization := some NormalizationType.BASIC }

/-- Concrete form values with the raw sentinel chosen. -/
def exampleValuesRaw : OperationFormValues :=
  { transformations := some [exampleTransformation]
    normalization := some NormalizationType.RAW }

/-- A concrete already-persisted normalization operation. -/
def persistedNormalization : OperationRead :=
  { operationId := "persisted-1"
    name := "Normalization"
    workspaceId := "w"
    operatorConfiguration :=
      { operatorType := OperatorType.Normalization
        normalization := some { option := NormalizationType.BASIC } } }

/-- C2: `mapFormPropsToOperation` emits, for a present non-raw normalization
choice, a normalization operation at index 0 followed by the user's
transformation list verbatim; for an absent or raw choice it emits exactly
the transformation list; hence no operation is duplicated or dropped. -/
theorem c2_mapFormPropsToOperation_shape (values : OperationFormValues)
    (initialOperations : List OperationRead) (workspaceId : String) :
    (∀ n, values.normalization = some n → n ≠ NormalizationType.RAW →
      ∃ op, isNormalizationTransformation op = true ∧
        mapFormPropsToOperation values initialOperations workspaceId =
          op :: values.transformations.getD []) ∧
    ((values.normalization = none ∨
        values.normalization = some NormalizationType.RAW) →
      mapFormPropsToOperation values initialOperations workspaceId =
        values.transformations.getD []) := by
  constructor
  · intro n hn hraw
    unfold mapFormPropsToOperation
    rw [hn]
    dsimp only
    rw [if_pos hraw]
    rcases hf : initialOperations.find? isNormalizationTransformation with _ | op
    · refine ⟨{ operationId := ""
                name := "Normalization"
                workspaceId := workspaceId
                operatorConfiguration :=
                  { operatorType := OperatorType.Normalization
                    normalization := some { option := n } } }, rfl, ?_⟩
      cases ht : values.transformations <;> simp [ht]
    · exact ⟨op, List.find?_some hf, by cases ht : values.transformations <;> simp [ht]⟩
  · intro h
    unfold mapFormPropsToOperation
    rcases h with h | h <;> rw [h] <;> cases ht : values.transformations <;> simp [ht]

/-- Witness for C2: both arms of the theorem at concrete inputs. -/
theorem c2_witness :
    (∃ op, isNormalizationTransformation op = true ∧
      mapFormPropsToOperation exampleValues [] "w" =
        op :: exampleValues.transformations.getD []) ∧
    mapFormPropsToOperation exampleValuesRaw [] "w" =
      exampleValuesRaw.transformations.getD [] :=
  ⟨(c2_mapFormPropsToOperation_shape exampleValues [] "w").1
      NormalizationType.BASIC rfl (by decide),
   (c2_mapFormPropsToOperation_shape exampleValuesRaw [] "w").2 (Or.inr rfl)⟩

/-- C3: with a non-raw normalization choice, the emitted normalization
operation is the persisted one (with its `operationId`) when
`initialOperations` contains one, and otherwise a newly synthesized
operation carrying the chosen option and the empty-string unassigned-id
sentinel. -/
theorem c3_normalization_identity (values : OperationFormValues)
    (initialOperations : List OperationRead) (workspaceId : String)
    (n : NormalizationType) (hn : values.normalization = some n)
    (hraw : n ≠ NormalizationType.RAW) :
    (∀ op, initialOperations.find? isNormalizationTransformation = some op →
      mapFormPropsToOperation values initialOperations workspaceId =
        op :: values.transformations.getD []) ∧
    (initialOperations.find? isNormalizationTransformation = none →
      mapFormPropsToOperation values initialOperations workspaceId =
        { name := "Normalization"
          workspaceId := workspaceId
          operationId := ""
          operatorConfiguration :=
            { operatorType := OperatorType.Normalization
              normalization := some { option := n } } } ::
          values.transformations.getD []) := by
  constructor
  · intro op hf
    unfold mapFormPropsToOperation
    rw [hn]
    dsimp only
    rw [if_pos hraw, hf]
    cases ht : values.transformations <;> simp [ht]
  · intro hf
    unfold mapFormPropsToOperation
    rw [hn]
    dsimp only
    rw [if_pos hraw, hf]
    cases ht : values.transformations <;> simp [ht]

/-- Witness for C3: identity reuse with a persisted normalization operation
present, and synthesis with none present, at concrete inputs. -/
theorem c3_witness :
    mapFormPropsToOperation exampleValues [persistedNormalization] "w" =
      persistedNormalization :: exampleValues.transformations.getD [] ∧
    mapFormPropsToOperation exampleValues [exampleTransformation] "w" =
      { name := "Normalization"
        workspaceId := "w"
        operationId := ""
        operatorConfiguration :=
          { operatorType := OperatorType.Normalization
            normalization := some { option := NormalizationType.BASIC } } } ::
        exampleValues.transformations.getD [] :=
  ⟨(c3_normalization_identity exampleValues [persistedNormalization] "w"
      NormalizationType.BASIC rfl (by decide)).1 persistedNormalization (by decide),
   (c3_normalization_identity exampleValues [exampleTransformation] "w"
      NormalizationType.BASIC rfl (by decide)).2 (by decide)⟩

/-- A concrete destination that supports normalization. -/
def c4DestDefinition : DestinationDefinitionSpecificationRead :=
  { supportedDestinationSyncModes := some [DestinationSyncMode.overwrite]
    supportsDbt := false
    supportsNormalization := true }

/-- A concrete existing connection whose persisted operations contain no
normalization operation. -/
def c4Connection : WebBackendConnectionRead :=
  { syncCatalog := { streams := [] }
    schedule := some (some DEFAULT_SCHEDULE)
    prefixStr := none
    namespaceDefinition := none
    namespaceFormat := none
    operations := some [exampleTransformation] }

/-- C4 (the code evaluated at the failing input): the edit-mode branch of
`getInitialNormalization` is a no-op — the result never depends on
`isEditMode` — so an edit of an existing connection with no persisted
normalization operation is seeded with `BASIC` instead of having its absent
normalization preserved (the source's own comment says this branch should
"select Raw one"). -/
theorem c4_getInitialNormalization_editMode_noop :
    (∀ (ops : Option (List OperationRead)) (e : Bool),
      getInitialNormalization ops e = getInitialNormalization ops false) ∧
    getInitialNormalization (some []) true = NormalizationType.BASIC ∧
    (useInitialValues c4Connection c4DestDefinition true).normalization =
      some NormalizationType.BASIC := by
  refine ⟨?_, by decide, by decide⟩
  intro ops e
  rcases h : ((ops.getD []).find? isNormalizationTransformation).bind
      (fun op => op.operatorConfiguration.normalization.map NormalizationConfig.option)
    with _ | x <;> cases e <;> simp [getInitialNormalization, h]

theorem modeQualifies_congr (t s : SyncSchemaStream)
    (caps : Option (List DestinationSyncMode)) (h : t.stream = s.stream) :
    modeQualifies t caps = modeQualifies s caps := by
  funext p
  unfold modeQualifies
  rw [h]

theorem resolvable_congr (t s : SyncSchemaStream)
    (caps : Option (List DestinationSyncMode)) (h : t.stream = s.stream) :
    resolvable t caps = resolvable s caps := by
  unfold resolvable
  rw [modeQualifies_congr t s caps h]

/-- The per-stream transformation applied by `useInitialSchema` before the
resolver, at input position `i`. -/
def initialNode (i : Nat) (s : SyncSchemaStream) : SyncSchemaStream :=
  verifyConfigCursorField (verifySupportedSyncModes { s with id := Nat.repr i })

theorem initialNode_stream (i : Nat) (s : SyncSchemaStream) :
    (initialNode i s).stream = s.stream := by
  unfold initialNode
  rw [verifyConfigCursorField_stream, verifySupportedSyncModes_stream]

theorem initialNode_id (i : Nat) (s : SyncSchemaStream) :
    (initialNode i s).id = Nat.repr i := by
  unfold initialNode
  rw [verifyConfigCursorField_id, verifySupportedSyncModes_id]

theorem c5_aux (caps : Option (List DestinationSyncMode))
    (streams : List SyncSchemaStream) : ∀ (n : Nat),
    (((streams.enumFrom n).map (fun p =>
        getOptimalSyncMode (verifyConfigCursorField (verifySupportedSyncModes
          { p.2 with id := Nat.repr p.1 })) caps)).filterMap
        (fun x => x)).map SyncSchemaStream.id =
      ((streams.enumFrom n).filter (fun p => resolvable p.2 caps)).map
        (fun p => Nat.repr p.1) := by
  induction streams with
  | nil => intro n; rfl
  | cons s rest ih =>
      intro n
      have hnode : getOptimalSyncMode (verifyConfigCursorField
          (verifySupportedSyncModes { s with id := Nat.repr n })) caps =
          getOptimalSyncMode (initialNode n s) caps := rfl
      rcases hres : resolvable s caps with _ | _
      · have hnone : getOptimalSyncMode (initialNode n s) caps = none := by
          have h1 := getOptimalSyncMode_isSome (initialNode n s) caps
          rw [resolvable_congr _ s caps (initialNode_stream n s), hres] at h1
          exact Option.not_isSome_iff_eq_none.mp (by rw [h1]; exact Bool.false_ne_true)
        simp only [List.enumFrom, List.map_cons, List.filterMap_cons, hnode, hnone,
          List.filter_cons, hres]
        exact ih (n + 1)
      · obtain ⟨u, hu⟩ : ∃ u, getOptimalSyncMode (initialNode n s) caps = some u := by
          refine Option.isSome_iff_exists.mp ?_
          rw [getOptimalSyncMode_isSome,
            resolvable_congr _ s caps (initialNode_stream n s), hres]
        have hid : u.id = Nat.repr n := by
          rw [getOptimalSyncMode_id (initialNode n s) caps u hu, initialNode_id]
        simp only [List.enumFrom, List.map_cons, List.filterMap_cons, hnode, hu,
          List.filter_cons, hres, hid]
        rw [if_pos trivial, List.map_cons]
        exact congrArg (List.cons (Nat.repr n)) (ih (n + 1))

/-- C5: `useInitialSchema` assigns each incoming stream an `id` equal to the
string form of its zero-based input position, drops exactly the streams for
which no compatibility-table pair qualifies, and preserves the relative
order of the rest: the ids of the output are the resolvable input positions
in increasing order. Concretely, a one-stream catalog supporting only
`FullRefresh` against a destination declaring only `append_dedup` yields the
empty schema (output length = input length − 1). -/
theorem c5_useInitialSchema_ids_drop_order :
    (∀ (streams : List SyncSchemaStream) (caps : Option (List DestinationSyncMode)),
      (useInitialSchema { streams := streams } caps).streams.map SyncSchemaStream.id =
        (streams.enum.filter (fun p => resolvable p.2 caps)).map
          (fun p => Nat.repr p.1)) ∧
    useInitialSchema { streams := [exampleStream [SyncMode.FullRefresh]] }
        (some [DestinationSyncMode.append_dedup]) = { streams := [] } := by
  refine ⟨?_, by decide⟩
  intro streams caps
  unfold useInitialSchema
  exact c5_aux caps streams 0

/-- A concrete validated stream built from the interesting config fields:
`id` is `"0"`, the descriptor supports `Incremental` and defines no cursor
unless `sdc` says otherwise. -/
def mkValidationStream (sel : Option Bool) (sm : Option SyncMode)
    (dsm : Option DestinationSyncMode) (pk : Option (List (List String)))
    (cf : Option (List String)) (sdc : Bool) : SyncSchemaStream :=
  { id := "0"
    stream :=
      { name := "users"
        supportedSyncModes := [SyncMode.FullRefresh, SyncMode.Incremental]
        sourceDefinedCursor := sdc
        defaultCursorField := [] }
    config :=
      { selected := sel
        syncMode := sm
        destinationSyncMode := dsm
        primaryKey := pk
        cursorField := cf } }

theorem pkViolation_ne_cursorViolation (a b : String) :
    pkViolation a ≠ cursorViolation b := by
  intro h
  have hm : "connectionForm.primaryKey.required" =
      "connectionForm.cursorField.required" := congrArg Violation.message h
  exact absurd hm (by decide)

/-- C6: a selected stream with `destinationSyncMode = append_dedup` and an
empty (but present) `primaryKey` yields exactly the `MissingPrimaryKey`
violation at `schema.streams[<id>].config.primaryKey`; a non-empty
`primaryKey` never yields that violation; an unselected stream yields no
violation at all. -/
theorem c6_missing_primary_key (s : SyncSchemaStream) :
    (s.config.selected = some true →
      s.config.destinationSyncMode = some DestinationSyncMode.append_dedup →
      s.config.primaryKey = some [] →
      validateStreamConfig s = some (pkViolation s.id)) ∧
    (∀ ks, s.config.primaryKey = some ks → ks ≠ [] →
      validateStreamConfig s ≠ some (pkViolation s.id)) ∧
    (s.config.selected = some false → validateStreamConfig s = none) := by
  refine ⟨?_, ?_, ?_⟩
  · intro h1 h2 h3
    simp [validateStreamConfig, h1, h2, h3]
  · intro ks hks hne hcontra
    unfold validateStreamConfig at hcontra
    dsimp only at hcontra
    split at hcontra
    · exact Option.noConfusion hcontra
    · split at hcontra
      · next hcond =>
          have h2 := hcond.2
          rw [hks] at h2
          simp only [Option.map_some', Option.some.injEq] at h2
          exact hne (List.length_eq_zero.mp h2)
      · split at hcontra
        · exact absurd (Option.some.inj hcontra).symm
            (pkViolation_ne_cursorViolation s.id s.id)
        · exact Option.noConfusion hcontra
  · intro h
    simp [validateStreamConfig, h]

/-- Witness for C6: the three arms at concrete streams — empty primary key
fires the violation, a non-empty one does not, unselected yields nothing. -/
theorem c6_witness :
    validateStreamConfig (mkValidationStream (some true) none
        (some DestinationSyncMode.append_dedup) (some []) (some ["ts"]) false) =
      some (pkViolation "0") ∧
    validateStreamConfig (mkValidationStream (some true) none
        (some DestinationSyncMode.append_dedup) (some [["id"]]) (some ["ts"]) false) ≠
      some (pkViolation "0") ∧
    validateStreamConfig (mkValidationStream (some false) none
        (some DestinationSyncMode.append_dedup) (some []) (some ["ts"]) false) =
      none :=
  ⟨(c6_missing_primary_key _).1 rfl rfl rfl,
   (c6_missing_primary_key _).2.1 [["id"]] rfl (by decide),
   (c6_missing_primary_key _).2.2 rfl⟩

/-- C7 counterexample: a selected stream with `syncMode = Incremental`,
`sourceDefinedCursor = false` and `cursorField = []` — i.e. satisfying all
of the claim's hypotheses — that also has
`destinationSyncMode = append_dedup` and `primaryKey = []` produces the
`MissingPrimaryKey` violation, NOT the `MissingCursorField` violation the
claim asserts: the primary-key rule is checked first and returns early. -/
theorem c7_counterexample :
    validateStreamConfig (mkValidationStream (some true) (some SyncMode.Incremental)
        (some DestinationSyncMode.append_dedup) (some []) (some []) false) =
      some (pkViolation "0") ∧
    validateStreamConfig (mkValidationStream (some true) (some SyncMode.Incremental)
        (some DestinationSyncMode.append_dedup) (some []) (some []) false) ≠
      some (cursorViolation "0") := by
  constructor
  · rfl
  · intro h
    exact absurd (Option.some.inj h) (pkViolation_ne_cursorViolation "0" "0")

/-- C7 (amended): a selected stream with `syncMode = Incremental`, no
source-defined cursor and an empty (present) `cursorField` yields exactly
the `MissingCursorField` violation at that stream's id, provided the
primary-key rule does not fire first (`destinationSyncMode ≠ append_dedup`
or `primaryKey` is not a present-and-empty list); the same stream with
`selected = false` yields zero violations. -/
theorem c7_missing_cursor_field (s : SyncSchemaStream) :
    (s.config.selected = some true →
      s.config.syncMode = some SyncMode.Incremental →
      s.stream.sourceDefinedCursor = false →
      s.config.cursorField = some [] →
      ¬(s.config.destinationSyncMode = some DestinationSyncMode.append_dedup ∧
          s.config.primaryKey = some []) →
      validateStreamConfig s = some (cursorViolation s.id)) ∧
    (s.config.selected = some false → validateStreamConfig s = none) := by
  constructor
  · intro h1 h2 h3 h4 hguard
    have hpk : ¬(s.config.destinationSyncMode =
        some DestinationSyncMode.append_dedup ∧
        s.config.primaryKey.map List.length = some 0) := by
      rintro ⟨ha, hb⟩
      rcases hks : s.config.primaryKey with _ | ks
      · rw [hks] at hb
        exact Option.noConfusion hb
      · rw [hks] at hb
        simp only [Option.map_some', Option.some.injEq] at hb
        exact hguard ⟨ha, by rw [hks, List.length_eq_zero.mp hb]⟩
    unfold validateStreamConfig
    dsimp only
    rw [if_neg (by rw [h1]; simp), if_neg hpk, if_pos ⟨h2, h3, by rw [h4]; rfl⟩]
  · intro h
    simp [validateStreamConfig, h]

/-- Witness for C7: the cursor violation fires at a concrete stream whose
destination sync mode is plain `append`, and the unselected variant of the
same stream produces nothing. -/
theorem c7_witness :
    validateStreamConfig (mkValidationStream (some true) (some SyncMode.Incremental)
        (some DestinationSyncMode.append) (some []) (some []) false) =
      some (cursorViolation "0") ∧
    validateStreamConfig (mkValidationStream (some false) (some SyncMode.Incremental)
        (some DestinationSyncMode.append) (some []) (some []) false) = none :=
  ⟨(c7_missing_cursor_field _).1 rfl rfl rfl rfl (by decide),
   (c7_missing_cursor_field _).2 rfl⟩

/-- C10: the `MissingPrimaryKey` check fires only when `primaryKey` is a
present array of length exactly 0 (an absent field passes), likewise the
`MissingCursorField` check for `cursorField`; and a selected
`append_dedup` stream with no `primaryKey` field never produces the
primary-key violation — at most the independent cursor rule can fire. -/
theorem c10_absent_fields_pass (s : SyncSchemaStream) :
    (validateStreamConfig s = some (pkViolation s.id) →
      s.config.primaryKey = some []) ∧
    (validateStreamConfig s = some (cursorViolation s.id) →
      s.config.cursorField = some []) ∧
    (s.config.selected = some true →
      s.config.destinationSyncMode = some DestinationSyncMode.append_dedup →
      s.config.primaryKey = none →
      (validateStreamConfig s = none ∨
        validateStreamConfig s = some (cursorViolation s.id))) := by
  refine ⟨?_, ?_, ?_⟩
  · intro h
    unfold validateStreamConfig at h
    dsimp only at h
    split at h
    · exact Option.noConfusion h
    · split at h
      · next hcond =>
          rcases hks : s.config.primaryKey with _ | ks
          · rw [hks] at hcond
            exact Option.noConfusion hcond.2
          · have h2 := hcond.2
            rw [hks] at h2
            simp only [Option.map_some', Option.some.injEq] at h2
            rw [List.length_eq_zero.mp h2]
      · split at h
        · exact absurd (Option.some.inj h).symm
            (pkViolation_ne_cursorViolation s.id s.id)
        · exact Option.noConfusion h
  · intro h
    unfold validateStreamConfig at h
    dsimp only at h
    split at h
    · exact Option.noConfusion h
    · split at h
      · exact absurd (Option.some.inj h)
          (pkViolation_ne_cursorViolation s.id s.id)
      · split at h
        · next hcond =>
            rcases hcf : s.config.cursorField with _ | cf
            · rw [hcf] at hcond
              exact Option.noConfusion hcond.2.2
            · have h3 := hcond.2.2
              rw [hcf] at h3
              simp only [Option.map_some', Option.some.injEq] at h3
              rw [List.length_eq_zero.mp h3]
        · exact Option.noConfusion h
  · intro h1 h2 hpk
    have hno : ¬(s.config.destinationSyncMode =
        some DestinationSyncMode.append_dedup ∧
        s.config.primaryKey.map List.length = some 0) := by
      rintro ⟨_, hb⟩
      rw [hpk] at hb
      exact Option.noConfusion hb
    unfold validateStreamConfig
    dsimp only
    rw [if_neg (by rw [h1]; simp), if_neg hno]
    split
    · exact Or.inr rfl
    · exact Or.inl rfl

/-- Witness for C10: a selected `append_dedup` stream whose config has no
`primaryKey` field at all produces no primary-key violation (here: no
violation, since its sync mode is not `Incremental`). -/
theorem c10_witness :
    validateStreamConfig (mkValidationStream (some true) none
        (some DestinationSyncMode.append_dedup) none (some ["ts"]) false) = none ∨
    validateStreamConfig (mkValidationStream (some true) none
        (some DestinationSyncMode.append_dedup) none (some ["ts"]) false) =
      some (cursorViolation "0") :=
  (c10_absent_fields_pass _).2.2 rfl rfl rfl

/-- C8 counterexample: a null-valued `schedule` is ACCEPTED by the schedule
rule (`.nullable()` admits `null`, which is this form's explicit manual
sentinel; only `undefined` is rejected by `.defined()`), contradicting the
claim that a null-valued schedule is rejected. -/
theorem c8_counterexample : validateSchedule (some none) = true := rfl

/-- C8 (amended): the schedule rule rejects an unset (`undefined`) schedule
and a schedule object missing `units` or missing (or empty-string)
`timeUnit`; it accepts exactly a concrete schedule with `units` populated
and a non-empty `timeUnit`, or the explicit manual sentinel, which is the
`null` value itself. -/
theorem c8_schedule_rule (s : Option (Option ConnectionSchedule)) :
    validateSchedule s = true ↔
      (s = some none ∨
        ∃ u t, t ≠ "" ∧
          s = some (some { units := some u, timeUnit := some t })) := by
  rcases s with _ | (_ | ⟨u, t⟩)
  · simp [validateSchedule]
  · simp [validateSchedule]
  · rcases u with _ | u <;> rcases t with _ | t <;>
      simp [validateSchedule]

/-- C9: determinism / referential stability: the initial-state builder is a
total function of its declared inputs (connection state with its raw
catalog and persisted operations, destination capability descriptor,
edit-mode flag, workspace id) — two invocations with equal inputs return
equal outputs. -/
theorem c9_buildInitialState_deterministic
    (c₁ c₂ : WebBackendConnectionRead)
    (d₁ d₂ : DestinationDefinitionSpecificationRead)
    (e₁ e₂ : Bool) (w₁ w₂ : String)
    (hc : c₁ = c₂) (hd : d₁ = d₂) (he : e₁ = e₂) (hw : w₁ = w₂) :
    buildInitialState c₁ d₁ e₁ w₁ = buildInitialState c₂ d₂ e₂ w₂ := by
  subst hc
  subst hd
  subst he
  subst hw
  rfl

/-- Witness for C9: two invocations at the same concrete inputs agree. -/
theorem c9_witness :
    buildInitialState c4Connection c4DestDefinition true "w" =
      buildInitialState c4Connection c4DestDefinition true "w" :=
  c9_buildInitialState_deterministic c4Connection c4Connection
    c4DestDefinition c4DestDefinition true true "w" "w" rfl rfl rfl rfl
